import Mathlib

/-!
Verification development for the Freelaince Connection & Synchronization
Layer.  The definitions below are a shallow embedding of the JavaScript
sources: `WebSocketManager` (src/front/background.js and the popup-variant
background script), `CalendarManager` (calendar page script) and
`OffersManager` (offers page script).  Stateful methods become pure
functions from a state record to a pair of the updated state and the list
of emitted external effects, in emission order.
-/

namespace Freelaince

/-- WebSocket `readyState` constants, as in the DOM WebSocket API. -/
inductive ReadyState where
  | CONNECTING
  | OPEN
  | CLOSING
  | CLOSED
deriving DecidableEq, Repr

/-- An outbound wire message, as built by `sendMessage`:
`{ type, message, timestamp: Date.now() }`. -/
structure Envelope where
  type : String
  message : String
  timestamp : Nat
deriving DecidableEq, Repr

/-- External effects a `WebSocketManager` method can emit, in order.
`notifyStatus` / `notifyError` / `notifyNewMessage` / `notifyHistory` /
`notifySystem` embed `notifyContentScript` (front variant) resp.
`notifyPopup` (popup variant) with the corresponding tag;
`wsSend` embeds `this.ws.send(JSON.stringify(payload))`;
`scheduleRetry d` embeds the `setTimeout(connect, d)` placed by
`attemptReconnect`; `scheduleConnect d` embeds the `setTimeout(connect, d)`
placed by the message listener; `closeChannel` embeds `this.ws.close()`;
`createChannel url` embeds `new WebSocket(url)`;
`openTab url` embeds `chrome.tabs.create({url})`. -/
inductive Effect where
  | notifyStatus (connected : Bool)
  | notifyError (msg : String)
  | notifyNewMessage (msg : Option String)
  | notifyHistory (history : List Envelope)
  | notifySystem (msg : Option String)
  | wsSend (payload : Envelope)
  | scheduleRetry (delayMs : Nat)
  | scheduleConnect (delayMs : Nat)
  | closeChannel
  | createChannel (url : String)
  | openTab (url : String)
deriving DecidableEq, Repr

/-- The mutable fields of `WebSocketManager`.  `ws` is `none` when
`this.ws` is null, otherwise it records the channel's `readyState`. -/
structure WSState where
  ws : Option ReadyState
  isConnected : Bool
  reconnectAttempts : Nat
  apiUrl : String
deriving DecidableEq, Repr

/-- `this.maxReconnectAttempts = 5` in the constructor. -/
def maxReconnectAttempts : Nat := 5

/-- `this.reconnectDelay = 1000` (milliseconds) in the constructor. -/
def reconnectDelay : Nat := 1000

/-- Embeds `WebSocketManager.attemptReconnect` (identical in both background
variants): skip when already connected or a channel is mid-handshake;
otherwise, while `reconnectAttempts < maxReconnectAttempts`, increment the
counter and schedule a retry after `reconnectDelay * reconnectAttempts`
(the value after the increment); past the ceiling, only log. -/
def attemptReconnect (s : WSState) : WSState × List Effect :=
  if s.isConnected ∨ s.ws = some ReadyState.CONNECTING then
    (s, [])
  else if s.reconnectAttempts < maxReconnectAttempts then
    ({ s with reconnectAttempts := s.reconnectAttempts + 1 },
     [Effect.scheduleRetry (reconnectDelay * (s.reconnectAttempts + 1))])
  else
    (s, [])

/-- Embeds the `ws.onclose` handler: the channel's `readyState` is `CLOSED`
when the event fires; the handler clears `isConnected`, notifies
`CONNECTION_STATUS {connected:false}` and calls `attemptReconnect`. -/
def onClose (s : WSState) : WSState × List Effect :=
  let s1 : WSState := { s with isConnected := false, ws := some ReadyState.CLOSED }
  let r := attemptReconnect s1
  (r.1, Effect.notifyStatus false :: r.2)

/-- Embeds `WebSocketManager.connect` (success path of the `try` block):
refuse when already connected or a handshake is in flight; close any
existing non-`CLOSED` channel; then create a new channel to `apiUrl`,
which starts in the `CONNECTING` state. -/
def connect (s : WSState) : WSState × List Effect :=
  if s.isConnected ∨ s.ws = some ReadyState.CONNECTING then
    (s, [])
  else
    let closeEffs : List Effect :=
      match s.ws with
      | some rs => if rs = ReadyState.CLOSED then [] else [Effect.closeChannel]
      | none => []
    ({ s with ws := some ReadyState.CONNECTING },
     closeEffs ++ [Effect.createChannel s.apiUrl])

/-- Embeds `sendMessage(message)` of src/front/background.js: when
connected and the channel is `OPEN`, send a `user_message` envelope
stamped with `Date.now()` (the `now` argument); otherwise log and notify
an `ERROR` local notification.  Nothing is stored either way. -/
def sendMessage (s : WSState) (message : String) (now : Nat) :
    WSState × List Effect :=
  if s.isConnected ∧ s.ws = some ReadyState.OPEN then
    (s, [Effect.wsSend { type := "user_message", message := message, timestamp := now }])
  else
    (s, [Effect.notifyError "Connection lost. Trying to reconnect..."])

/-- Embeds `sendMessage(message, type)` of the popup-variant background
script, which takes the envelope type as a second parameter
(default `user_message`); the guard and the failure branch are identical
to the front variant. -/
def sendMessageTyped (s : WSState) (message msgType : String) (now : Nat) :
    WSState × List Effect :=
  if s.isConnected ∧ s.ws = some ReadyState.OPEN then
    (s, [Effect.wsSend { type := msgType, message := message, timestamp := now }])
  else
    (s, [Effect.notifyError "Connection lost. Trying to reconnect..."])

/-- Delays of the `scheduleRetry` effects in an effect list, in order. -/
def retryDelaysOf : List Effect → List Nat
  | [] => []
  | Effect.scheduleRetry d :: rest => d :: retryDelaysOf rest
  | _ :: rest => retryDelaysOf rest

/-- Run `n` consecutive channel-close events from state `s` (no successful
open and no manual reconnect in between) and collect the delays of every
scheduled retry, in order. -/
def closeSequence (s : WSState) : Nat → WSState × List Nat
  | 0 => (s, [])
  | n + 1 =>
    let r1 := onClose s
    let r2 := closeSequence r1.1 n
    (r2.1, retryDelaysOf r1.2 ++ r2.2)

theorem attemptReconnect_after_close (s : WSState) :
    onClose s =
      if s.reconnectAttempts < maxReconnectAttempts then
        ({ s with isConnected := false, ws := some ReadyState.CLOSED,
                  reconnectAttempts := s.reconnectAttempts + 1 },
         [Effect.notifyStatus false,
          Effect.scheduleRetry (reconnectDelay * (s.reconnectAttempts + 1))])
      else
        ({ s with isConnected := false, ws := some ReadyState.CLOSED }, [Effect.notifyStatus false]) := by
  by_cases h : s.reconnectAttempts < maxReconnectAttempts <;>
    simp [onClose, attemptReconnect, h]

theorem closeSequence_delays (n : Nat) : ∀ s : WSState,
    (closeSequence s n).2 =
      (List.range (min n (maxReconnectAttempts - s.reconnectAttempts))).map
        (fun k => reconnectDelay * (s.reconnectAttempts + k + 1)) := by
  induction n with
  | zero => intro s; simp [closeSequence]
  | succ n ih =>
    intro s
    by_cases h : s.reconnectAttempts < maxReconnectAttempts
    · have hmin : min (n + 1) (maxReconnectAttempts - s.reconnectAttempts) =
          (min n (maxReconnectAttempts - (s.reconnectAttempts + 1))) + 1 := by
        omega
      simp only [closeSequence, attemptReconnect_after_close s, if_pos h]
      rw [ih]
      rw [hmin, List.range_succ_eq_map, List.map_cons, List.map_map]
      simp only [retryDelaysOf, List.singleton_append]
      congr 1
      apply List.map_congr_left
      intro k _
      simp only [Function.comp_apply]
      congr 1
      omega
    · have hz : maxReconnectAttempts - s.reconnectAttempts = 0 := by omega
      simp only [closeSequence, attemptReconnect_after_close s, if_neg h]
      rw [ih]
      simp [retryDelaysOf, hz]

/-- Claim C1: starting from a controller whose retry counter is 0, any
sequence of `n` channel-close events with no successful open and no manual
reconnect in between schedules exactly `min n maxReconnectAttempts` retries
(so at most 5), the k-th scheduled retry has delay exactly
`reconnectDelay * k` (1000·k ms) for 1 ≤ k ≤ 5, and once the counter
reaches `maxReconnectAttempts` no further retry is scheduled. -/
theorem reconnect_linear_backoff_capped (s : WSState) (n : Nat)
    (h : s.reconnectAttempts = 0) :
    (closeSequence s n).2 =
      (List.range (min n maxReconnectAttempts)).map (fun k => reconnectDelay * (k + 1)) := by
  rw [closeSequence_delays n s, h]
  simp

theorem reconnect_linear_backoff_capped_witness :
    (⟨none, false, 0, "ws://localhost:8080"⟩ : WSState).reconnectAttempts = 0 ∧
    (closeSequence ⟨none, false, 0, "ws://localhost:8080"⟩ 7).2 =
      (List.range (min 7 maxReconnectAttempts)).map (fun k => reconnectDelay * (k + 1)) :=
  ⟨rfl, reconnect_linear_backoff_capped ⟨none, false, 0, "ws://localhost:8080"⟩ 7 rfl⟩

/-- Claim C2: a send requested while the connection state is not Connected
is rejected synchronously in both background variants: the state (which
holds no queue) is unchanged, no envelope is handed to the channel, and the
emitted effects are exactly one error-type local notification. -/
theorem send_rejected_when_not_connected (s : WSState) (msg t : String) (now : Nat)
    (h : s.isConnected = false) :
    sendMessage s msg now =
      (s, [Effect.notifyError "Connection lost. Trying to reconnect..."]) ∧
    sendMessageTyped s msg t now =
      (s, [Effect.notifyError "Connection lost. Trying to reconnect..."]) := by
  constructor <;> simp [sendMessage, sendMessageTyped, h]

theorem send_rejected_when_not_connected_witness :
    (⟨some ReadyState.CLOSED, false, 0, "ws://localhost:8080"⟩ : WSState).isConnected = false ∧
    (sendMessage ⟨some ReadyState.CLOSED, false, 0, "ws://localhost:8080"⟩ "hello" 42 =
      (⟨some ReadyState.CLOSED, false, 0, "ws://localhost:8080"⟩,
       [Effect.notifyError "Connection lost. Trying to reconnect..."]) ∧
    sendMessageTyped ⟨some ReadyState.CLOSED, false, 0, "ws://localhost:8080"⟩ "hello" "user_message" 42 =
      (⟨some ReadyState.CLOSED, false, 0, "ws://localhost:8080"⟩,
       [Effect.notifyError "Connection lost. Trying to reconnect..."])) :=
  ⟨rfl, send_rejected_when_not_connected _ "hello" "user_message" 42 rfl⟩

/-- Claim C5: `connect()` is idempotent: when the controller is already
Connected (`isConnected`) or a channel handshake is in flight
(`readyState === CONNECTING`), the call returns with no effect at all —
no channel is created or closed and the state (including the retry
counter and the existing channel) is unchanged. -/
theorem connect_idempotent (s : WSState)
    (h : s.isConnected = true ∨ s.ws = some ReadyState.CONNECTING) :
    connect s = (s, []) := by
  rcases h with h | h <;> simp [connect, h]

theorem connect_idempotent_witness :
    ((⟨some ReadyState.CONNECTING, false, 2, "ws://localhost:8080"⟩ : WSState).isConnected = true ∨
      (⟨some ReadyState.CONNECTING, false, 2, "ws://localhost:8080"⟩ : WSState).ws =
        some ReadyState.CONNECTING) ∧
    connect ⟨some ReadyState.CONNECTING, false, 2, "ws://localhost:8080"⟩ =
      (⟨some ReadyState.CONNECTING, false, 2, "ws://localhost:8080"⟩, []) :=
  ⟨Or.inr rfl, connect_idempotent _ (Or.inr rfl)⟩

/-- A parsed inbound server message as consumed by `handleServerMessage`:
the `type` discriminator plus the payload fields the handlers read
(`message`, `url`, `history`), optional where the code tolerates absence. -/
structure ServerMessage where
  type : String
  message : Option String
  url : String
  history : List Envelope
deriving DecidableEq, Repr

/-- The `type` values with a `case` arm in
`WebSocketManager.handleServerMessage` of src/front/background.js. -/
def knownTypes : List String :=
  ["bot_response", "chat_answer", "open_tab", "conversation_history", "system_message"]

/-- Embeds `WebSocketManager.handleServerMessage` of src/front/background.js:
dispatch on `data.type`; the `default` arm only calls `console.error`,
changing nothing and emitting nothing.  `open_tab` embeds `handleTabOpen`:
open the tab and, when `data.message` is present, forward it to the
original tab. -/
def handleServerMessage (s : WSState) (data : ServerMessage) : WSState × List Effect :=
  if data.type = "bot_response" then
    (s, [Effect.notifyNewMessage data.message])
  else if data.type = "chat_answer" then
    (s, [Effect.notifyNewMessage data.message])
  else if data.type = "open_tab" then
    (s, Effect.openTab data.url ::
      (match data.message with
       | some m => [Effect.notifyNewMessage (some m)]
       | none => []))
  else if data.type = "conversation_history" then
    (s, [Effect.notifyHistory data.history])
  else if data.type = "system_message" then
    (s, [Effect.notifySystem data.message])
  else
    (s, [])

/-- The raw payload of a `ws.onmessage` event after the `JSON.parse`
attempt: either it failed to parse, or it parsed to a `ServerMessage`. -/
inductive Inbound where
  | malformed
  | parsed (data : ServerMessage)
deriving DecidableEq, Repr

/-- Embeds the `ws.onmessage` handler: `JSON.parse` inside `try`; a parse
failure is caught and only logged; a parsed message goes to
`handleServerMessage`. -/
def onMessage (s : WSState) (m : Inbound) : WSState × List Effect :=
  match m with
  | Inbound.malformed => (s, [])
  | Inbound.parsed d => handleServerMessage s d

/-- Claim C7: a malformed inbound message, or one whose `type` has no
registered handler, is logged and dropped: no effect is emitted (so
nothing reaches the UI and nothing is retried), the state is unchanged,
and the processing of any subsequent message is exactly as if the bad
message had never arrived. -/
theorem bad_inbound_logged_and_dropped (s : WSState) (d : ServerMessage) (m : Inbound)
    (h : d.type ∉ knownTypes) :
    onMessage s (Inbound.parsed d) = (s, []) ∧
    onMessage s Inbound.malformed = (s, []) ∧
    onMessage (onMessage s (Inbound.parsed d)).1 m = onMessage s m := by
  simp only [knownTypes, List.mem_cons, List.not_mem_nil, or_false, not_or] at h
  obtain ⟨h1, h2, h3, h4, h5⟩ := h
  have hdrop : onMessage s (Inbound.parsed d) = (s, []) := by
    simp [onMessage, handleServerMessage, h1, h2, h3, h4, h5]
  exact ⟨hdrop, rfl, by rw [hdrop]⟩

theorem bad_inbound_logged_and_dropped_witness :
    (⟨"weird_type", none, "", []⟩ : ServerMessage).type ∉ knownTypes ∧
    (onMessage ⟨some ReadyState.OPEN, true, 0, "ws://localhost:8080"⟩
        (Inbound.parsed ⟨"weird_type", none, "", []⟩) =
      (⟨some ReadyState.OPEN, true, 0, "ws://localhost:8080"⟩, []) ∧
    onMessage ⟨some ReadyState.OPEN, true, 0, "ws://localhost:8080"⟩ Inbound.malformed =
      (⟨some ReadyState.OPEN, true, 0, "ws://localhost:8080"⟩, []) ∧
    onMessage (onMessage ⟨some ReadyState.OPEN, true, 0, "ws://localhost:8080"⟩
        (Inbound.parsed ⟨"weird_type", none, "", []⟩)).1
        (Inbound.parsed ⟨"bot_response", some "hi", "", []⟩) =
      onMessage ⟨some ReadyState.OPEN, true, 0, "ws://localhost:8080"⟩
        (Inbound.parsed ⟨"bot_response", some "hi", "", []⟩)) :=
  ⟨by decide, bad_inbound_logged_and_dropped _ _ _ (by decide)⟩

/-- Embeds the `ws.onopen` handler of src/front/background.js: the channel
is `OPEN` when the event fires; the handler sets `isConnected`, resets
`reconnectAttempts` to 0 and notifies `CONNECTION_STATUS {connected:true}`.
It issues no request to the remote endpoint. -/
def frontOnOpen (s : WSState) : WSState × List Effect :=
  ({ s with isConnected := true, ws := some ReadyState.OPEN, reconnectAttempts := 0 },
   [Effect.notifyStatus true])

/-- Embeds the `ws.onopen` handler of the popup-variant background script:
same as the front variant, then additionally
`this.sendMessage('sync_history', 'sync_history')` — the initial
state-sync request. -/
def popupOnOpen (s : WSState) (now : Nat) : WSState × List Effect :=
  let s1 : WSState :=
    { s with isConnected := true, ws := some ReadyState.OPEN, reconnectAttempts := 0 }
  let r := sendMessageTyped s1 "sync_history" "sync_history" now
  (r.1, Effect.notifyStatus true :: r.2)

/-- Whether an effect is a state-sync request to the remote endpoint
(a sent envelope of type `sync_history`). -/
def isSyncRequest : Effect → Bool
  | Effect.wsSend payload => payload.type == "sync_history"
  | _ => false

/-- Claim C8 counterexample: at a concrete Connecting → Connected
transition, the `onopen` handler of src/front/background.js emits only the
`connection_status: true` notification — no state-sync request is issued
to the remote endpoint, so the claim that every open transition performs
all three side effects fails on this variant. -/
theorem frontOnOpen_missing_sync :
    (frontOnOpen ⟨some ReadyState.CONNECTING, false, 2, "ws://localhost:8080"⟩).2 =
      [Effect.notifyStatus true] ∧
    ((frontOnOpen ⟨some ReadyState.CONNECTING, false, 2, "ws://localhost:8080"⟩).2.any
        isSyncRequest) = false :=
  ⟨rfl, rfl⟩

/-- Claim C8 (amended): on every Connecting → Connected transition both
background variants reset the retry counter to 0 and emit a
`connection_status: true` notification; only the popup-variant handler
additionally issues the initial state-sync (`sync_history`) request, while
the src/front/background.js handler issues none. -/
theorem onOpen_side_effects (s : WSState) (now : Nat) :
    frontOnOpen s =
      ({ s with isConnected := true, ws := some ReadyState.OPEN, reconnectAttempts := 0 },
       [Effect.notifyStatus true]) ∧
    popupOnOpen s now =
      ({ s with isConnected := true, ws := some ReadyState.OPEN, reconnectAttempts := 0 },
       [Effect.notifyStatus true,
        Effect.wsSend { type := "sync_history", message := "sync_history", timestamp := now }]) := by
  refine ⟨rfl, ?_⟩
  simp [popupOnOpen, sendMessageTyped]

/-- Embeds the `UPDATE_API_URL` arm of the popup-variant
`setupMessageListener`: store the new URL, clear `isConnected`, close any
existing channel (which enters `CLOSING`), and schedule `connect` after
100 ms.  `reconnectAttempts` is not touched. -/
def handleUpdateApiUrl (s : WSState) (url : String) : WSState × List Effect :=
  match s.ws with
  | some _ =>
    ({ s with apiUrl := url, isConnected := false, ws := some ReadyState.CLOSING },
     [Effect.closeChannel, Effect.scheduleConnect 100])
  | none =>
    ({ s with apiUrl := url, isConnected := false },
     [Effect.scheduleConnect 100])

/-- Claim C9 counterexample: processing `UPDATE_API_URL` from a concrete
state whose retry counter is 3 leaves the counter at 3 — the
teardown-and-reconnect cycle triggered by a remote-address update does not
itself reset the retry-attempt counter. -/
theorem updateApiUrl_keeps_attempts :
    ¬ ((handleUpdateApiUrl ⟨some ReadyState.OPEN, true, 3, "ws://localhost:8080"⟩
        "ws://example.com:9000").1.reconnectAttempts = 0) := by
  decide

/-- Claim C9 (amended): on `UPDATE_API_URL` the controller stores the new
remote address, marks itself disconnected, closes any existing channel and
schedules an immediate (100 ms) reconnect; the retry-attempt counter is
left unchanged by the handler itself and is reset to 0 only when the
subsequent connection's open acknowledgment arrives. -/
theorem updateApiUrl_teardown_reconnect (s : WSState) (url : String) (now : Nat) :
    (handleUpdateApiUrl s url).1.apiUrl = url ∧
    (handleUpdateApiUrl s url).1.isConnected = false ∧
    (handleUpdateApiUrl s url).1.reconnectAttempts = s.reconnectAttempts ∧
    Effect.scheduleConnect 100 ∈ (handleUpdateApiUrl s url).2 ∧
    (s.ws.isSome → Effect.closeChannel ∈ (handleUpdateApiUrl s url).2) ∧
    (popupOnOpen (handleUpdateApiUrl s url).1 now).1.reconnectAttempts = 0 := by
  cases hws : s.ws <;>
    simp [handleUpdateApiUrl, popupOnOpen, sendMessageTyped, hws]

theorem updateApiUrl_teardown_reconnect_witness :
    (handleUpdateApiUrl ⟨some ReadyState.OPEN, true, 3, "ws://localhost:8080"⟩
        "ws://example.com:9000").1.apiUrl = "ws://example.com:9000" ∧
    (handleUpdateApiUrl ⟨some ReadyState.OPEN, true, 3, "ws://localhost:8080"⟩
        "ws://example.com:9000").1.isConnected = false ∧
    (handleUpdateApiUrl ⟨some ReadyState.OPEN, true, 3, "ws://localhost:8080"⟩
        "ws://example.com:9000").1.reconnectAttempts =
      (⟨some ReadyState.OPEN, true, 3, "ws://localhost:8080"⟩ : WSState).reconnectAttempts ∧
    Effect.scheduleConnect 100 ∈
      (handleUpdateApiUrl ⟨some ReadyState.OPEN, true, 3, "ws://localhost:8080"⟩
        "ws://example.com:9000").2 ∧
    ((⟨some ReadyState.OPEN, true, 3, "ws://localhost:8080"⟩ : WSState).ws.isSome →
      Effect.closeChannel ∈
        (handleUpdateApiUrl ⟨some ReadyState.OPEN, true, 3, "ws://localhost:8080"⟩
          "ws://example.com:9000").2) ∧
    (popupOnOpen (handleUpdateApiUrl ⟨some ReadyState.OPEN, true, 3, "ws://localhost:8080"⟩
        "ws://example.com:9000").1 42).1.reconnectAttempts = 0 :=
  updateApiUrl_teardown_reconnect ⟨some ReadyState.OPEN, true, 3, "ws://localhost:8080"⟩
    "ws://example.com:9000" 42

/-- A calendar event as stored in `CalendarManager.events`.  `endTime`
embeds the JS field `end` (a Lean keyword); instants are epoch
milliseconds. -/
structure CalendarEvent where
  id : String
  title : String
  start : Int
  endTime : Int
  description : String
  location : String
  priority : Nat
deriving DecidableEq, Repr

/-- A raw event object of a `schedule_data` / `events_data` server
snapshot, before `parseEventsData`.  Optional fields embed the `||`
defaults of the code; `start_time` / `end_time` collapse the
`event.start_time || event.start` (resp. `end`) field fallback to a single
instant. -/
structure ServerEvent where
  id : Option String
  title : String
  start_time : Int
  end_time : Int
  description : Option String
  location : Option String
  priority : Option Nat
deriving DecidableEq, Repr

/-- One element of `CalendarManager.parseEventsData`'s `map`: `fresh` is
the value `this.generateId()` would return when `event.id` is absent. -/
def parseEvent (fresh : String) (e : ServerEvent) : CalendarEvent :=
  { id := e.id.getD fresh
    title := e.title
    start := e.start_time
    endTime := e.end_time
    description := e.description.getD ""
    location := e.location.getD ""
    priority := e.priority.getD 1 }

/-- Recursion worker for `parseEventsData`, threading the position into the
fresh-identifier stream. -/
def parseEventsGo (freshIds : Nat → String) (i : Nat) :
    List ServerEvent → List CalendarEvent
  | [] => []
  | e :: rest => parseEvent (freshIds i) e :: parseEventsGo freshIds (i + 1) rest

/-- Embeds `CalendarManager.parseEventsData`: map every snapshot event to a
`CalendarEvent`, keeping `event.id` when present and otherwise drawing a
generated identifier; `generateId()` (random 9-character string) is
modelled by the stream `freshIds`. -/
def parseEventsData (freshIds : Nat → String) (serverEvents : List ServerEvent) :
    List CalendarEvent :=
  parseEventsGo freshIds 0 serverEvents

/-- The cache-relevant fields of `CalendarManager`: the in-memory event
collection and the `freelaince_calendar` entry of `localStorage`
(`none` when the key is absent). -/
structure CalState where
  events : List CalendarEvent
  storedCalendar : Option (List CalendarEvent)
deriving DecidableEq, Repr

/-- Embeds the `schedule_data` / `events_data` arm of
`CalendarManager.handleServerMessage`: `this.events` is assigned the
parsed snapshot and `localStorage` is overwritten with it, regardless of
the previous contents of either. -/
def handleSnapshot (s : CalState) (freshIds : Nat → String)
    (serverEvents : List ServerEvent) : CalState :=
  let evs := parseEventsData freshIds serverEvents
  { events := evs, storedCalendar := some evs }

theorem parseEventsGo_id_absent (freshIds : Nat → String) (eid : String)
    (hfresh : ∀ i, freshIds i ≠ eid) :
    ∀ (l : List ServerEvent) (i : Nat), (∀ e ∈ l, e.id ≠ some eid) →
      ∀ ev ∈ parseEventsGo freshIds i l, ev.id ≠ eid := by
  intro l
  induction l with
  | nil => intro i _ ev hev; simp [parseEventsGo] at hev
  | cons e rest ih =>
    intro i hl ev hev
    simp only [parseEventsGo, List.mem_cons] at hev
    rcases hev with rfl | hev
    · cases hid : e.id with
      | none => simpa [parseEvent, hid] using hfresh i
      | some x =>
        have hx : e.id ≠ some eid := hl e (List.mem_cons_self e rest)
        simp only [parseEvent, hid, Option.getD_some]
        intro hxe
        exact hx (by rw [hid, hxe])
    · exact ih (i + 1) (fun e' he' => hl e' (List.mem_cons_of_mem e he')) ev hev

/-- Claim C3: processing a full-snapshot envelope (`schedule_data` or
`events_data`) replaces both the in-memory event collection and the
persisted cache wholesale with the parsed snapshot, whatever they held
before; consequently a locally-authored event whose identifier occurs
neither in the snapshot nor among the generated identifiers is absent from
the cache afterwards. -/
theorem snapshot_full_replace (s : CalState) (freshIds : Nat → String)
    (serverEvents : List ServerEvent) (eid : String)
    (hfresh : ∀ i, freshIds i ≠ eid)
    (habs : ∀ e ∈ serverEvents, e.id ≠ some eid) :
    (handleSnapshot s freshIds serverEvents).events =
      parseEventsData freshIds serverEvents ∧
    (handleSnapshot s freshIds serverEvents).storedCalendar =
      some (parseEventsData freshIds serverEvents) ∧
    ∀ ev ∈ (handleSnapshot s freshIds serverEvents).events, ev.id ≠ eid := by
  refine ⟨rfl, rfl, ?_⟩
  exact parseEventsGo_id_absent freshIds eid hfresh serverEvents 0 habs

theorem snapshot_full_replace_witness :
    (∀ i : Nat, (fun _ : Nat => "gen444wxyz") i ≠ "local1") ∧
    ((∀ e ∈ [(⟨some "srv1", "Synced meeting", 0, 60, none, none, none⟩ : ServerEvent)],
        e.id ≠ some "local1") ∧
    ((handleSnapshot ⟨[⟨"local1", "Offline draft", 0, 60, "", "", 1⟩], none⟩
          (fun _ => "gen444wxyz")
          [⟨some "srv1", "Synced meeting", 0, 60, none, none, none⟩]).events =
        parseEventsData (fun _ => "gen444wxyz")
          [⟨some "srv1", "Synced meeting", 0, 60, none, none, none⟩] ∧
      (handleSnapshot ⟨[⟨"local1", "Offline draft", 0, 60, "", "", 1⟩], none⟩
          (fun _ => "gen444wxyz")
          [⟨some "srv1", "Synced meeting", 0, 60, none, none, none⟩]).storedCalendar =
        some (parseEventsData (fun _ => "gen444wxyz")
          [⟨some "srv1", "Synced meeting", 0, 60, none, none, none⟩]) ∧
      ∀ ev ∈ (handleSnapshot ⟨[⟨"local1", "Offline draft", 0, 60, "", "", 1⟩], none⟩
          (fun _ => "gen444wxyz")
          [⟨some "srv1", "Synced meeting", 0, 60, none, none, none⟩]).events,
        ev.id ≠ "local1")) :=
  ⟨fun _ => (by decide : "gen444wxyz" ≠ "local1"), by decide,
    snapshot_full_replace ⟨[⟨"local1", "Offline draft", 0, 60, "", "", 1⟩], none⟩
      (fun _ => "gen444wxyz")
      [⟨some "srv1", "Synced meeting", 0, 60, none, none, none⟩] "local1"
      (fun _ => (by decide : "gen444wxyz" ≠ "local1")) (by decide)⟩

/-- Embeds `CalendarManager.eventsOverlap`:
`event1.start < event2.end && event1.end > event2.start`. -/
def eventsOverlap (event1 event2 : CalendarEvent) : Bool :=
  event1.start < event2.endTime && event1.endTime > event2.start

/-- The per-pair predicate tested inside `CalendarManager.hasConflicts`:
`event.id !== targetEvent.id && this.eventsOverlap(event, targetEvent)`. -/
def conflict (a b : CalendarEvent) : Bool :=
  a.id != b.id && eventsOverlap a b

/-- Embeds `CalendarManager.hasConflicts`: some event of the collection
other than the target overlaps the target. -/
def hasConflicts (events : List CalendarEvent) (targetEvent : CalendarEvent) : Bool :=
  events.any fun event => event.id != targetEvent.id && eventsOverlap event targetEvent

/-- Claim C4: two events conflict exactly when `A.start < B.end`,
`A.end > B.start` and `A.id ≠ B.id`; back-to-back events sharing the
single endpoint `A.end = B.start` never conflict; no event conflicts with
itself; and `hasConflicts` is exactly this predicate tested over the
collection. -/
theorem conflict_characterisation (A B : CalendarEvent) (events : List CalendarEvent) :
    (conflict A B = true ↔
      (A.start < B.endTime ∧ A.endTime > B.start ∧ A.id ≠ B.id)) ∧
    (A.endTime = B.start → conflict A B = false) ∧
    conflict A A = false ∧
    hasConflicts events B = events.any fun e => conflict e B := by
  refine ⟨?_, ?_, ?_, rfl⟩
  · simp [conflict, eventsOverlap, and_comm, and_left_comm]
  · intro hend
    simp [conflict, eventsOverlap, hend]
  · simp [conflict]

theorem conflict_characterisation_witness :
    (conflict ⟨"a", "Morning", 600, 660, "", "", 1⟩ ⟨"b", "Noon", 660, 720, "", "", 1⟩ = true ↔
      ((600 : Int) < 720 ∧ (660 : Int) > 660 ∧ "a" ≠ "b")) ∧
    ((660 : Int) = 660 →
      conflict ⟨"a", "Morning", 600, 660, "", "", 1⟩ ⟨"b", "Noon", 660, 720, "", "", 1⟩ = false) ∧
    conflict ⟨"a", "Morning", 600, 660, "", "", 1⟩ ⟨"a", "Morning", 600, 660, "", "", 1⟩ = false ∧
    hasConflicts [⟨"a", "Morning", 600, 660, "", "", 1⟩] ⟨"b", "Noon", 660, 720, "", "", 1⟩ =
      List.any [⟨"a", "Morning", 600, 660, "", "", 1⟩]
        fun e => conflict e ⟨"b", "Noon", 660, 720, "", "", 1⟩ :=
  conflict_characterisation ⟨"a", "Morning", 600, 660, "", "", 1⟩
    ⟨"b", "Noon", 660, 720, "", "", 1⟩ [⟨"a", "Morning", 600, 660, "", "", 1⟩]

/-- A job offer as stored in `OffersManager.offers`; the untouched domain
fields are represented by `job_title`, `client_name` and `location`. -/
structure Offer where
  offer_id : String
  job_title : String
  client_name : String
  location : String
  status : String
deriving DecidableEq, Repr

/-- The cache-relevant fields of `OffersManager`: the in-memory offer
collection and the `freelaince_offers` entry of `localStorage`
(`none` when the key is absent). -/
structure OffersState where
  offers : List Offer
  storedOffers : Option (List Offer)
deriving DecidableEq, Repr

/-- How one `connectAndSendUpdate` connection attempt ends: a parsed reply
`{type, success}` from the server, a reply that fails to parse, a
connection error, a close before any reply, or the 5-second timeout. -/
inductive ServerResponse where
  | reply (rtype : String) (success : Bool)
  | malformed
  | connError
  | closedWithoutResponse
  | timeout
deriving DecidableEq, Repr

/-- Embeds the boolean `OffersManager.connectAndSendUpdate` resolves with:
`true` exactly when a reply parses and is
`type === 'offer_status_updated' && success`; every other outcome —
a failed reply, a reply that does not parse, `onerror`, `onclose` before
any reply, or the 5-second timeout — resolves `false`.
`syncStatusWithServer` passes this boolean through unchanged. -/
def connectAndSendUpdate : ServerResponse → Bool
  | ServerResponse.reply rtype success => rtype == "offer_status_updated" && success
  | ServerResponse.malformed => false
  | ServerResponse.connError => false
  | ServerResponse.closedWithoutResponse => false
  | ServerResponse.timeout => false

/-- In-place mutation of the offer found by
`this.offers.find(o => o.offer_id === offerId)`: the first offer with the
identifier gets the new status, the rest of the list is untouched. -/
def setStatusFirst (offerId newStatus : String) : List Offer → List Offer
  | [] => []
  | o :: rest =>
    if o.offer_id == offerId then { o with status := newStatus } :: rest
    else o :: setStatusFirst offerId newStatus rest

/-- The user-visible notifications `updateOfferStatus` can emit. -/
inductive OffersEffect where
  | showSuccess (msg : String)
  | showError (msg : String)
deriving DecidableEq, Repr

/-- Embeds `OffersManager.updateOfferStatus`: first await the server sync;
only if it succeeded and the offer exists, mutate its status, overwrite
the persisted cache and report success; on any server failure, report an
error and leave both the collection and the cache untouched. -/
def updateOfferStatus (s : OffersState) (offerId newStatus : String)
    (outcome : ServerResponse) : OffersState × List OffersEffect :=
  if connectAndSendUpdate outcome then
    if (s.offers.find? fun o => o.offer_id == offerId).isSome then
      let offers' := setStatusFirst offerId newStatus s.offers
      ({ offers := offers', storedOffers := some offers' },
       [OffersEffect.showSuccess ("Offer status updated to " ++ newStatus)])
    else (s, [])
  else (s, [OffersEffect.showError "Failed to update offer status on server"])

/-- Claim C10: offer status updates are atomic with respect to server
failure: unless the connection attempt ends in a parsed
`offer_status_updated` reply with `success = true`, `updateOfferStatus`
leaves the offer collection and the persisted cache completely unchanged
(contrapositively, the local entry is mutated only on the successful
acknowledgment). -/
theorem updateOfferStatus_atomic (s : OffersState) (offerId newStatus : String)
    (outcome : ServerResponse)
    (h : outcome ≠ ServerResponse.reply "offer_status_updated" true) :
    (updateOfferStatus s offerId newStatus outcome).1 = s := by
  have hfail : connectAndSendUpdate outcome = false := by
    cases outcome with
    | reply rtype success =>
      by_cases hr : rtype = "offer_status_updated"
      · cases success with
        | false => simp [connectAndSendUpdate]
        | true => exact absurd (by rw [hr]) h
      · simp [connectAndSendUpdate, hr]
    | malformed => rfl
    | connError => rfl
    | closedWithoutResponse => rfl
    | timeout => rfl
  simp [updateOfferStatus, hfail]

theorem updateOfferStatus_atomic_witness :
    (ServerResponse.timeout ≠ ServerResponse.reply "offer_status_updated" true) ∧
    (updateOfferStatus
        ⟨[⟨"12345678", "Photography", "Sarah Johnson", "Central Park", "pending"⟩],
         some [⟨"12345678", "Photography", "Sarah Johnson", "Central Park", "pending"⟩]⟩
        "12345678" "accepted" ServerResponse.timeout).1 =
      ⟨[⟨"12345678", "Photography", "Sarah Johnson", "Central Park", "pending"⟩],
       some [⟨"12345678", "Photography", "Sarah Johnson", "Central Park", "pending"⟩]⟩ :=
  ⟨by decide,
    updateOfferStatus_atomic
      ⟨[⟨"12345678", "Photography", "Sarah Johnson", "Central Park", "pending"⟩],
       some [⟨"12345678", "Photography", "Sarah Johnson", "Central Park", "pending"⟩]⟩
      "12345678" "accepted" ServerResponse.timeout (by decide)⟩

/-- A deduplication fingerprint: the hash inputs (sender, content, coarse
time bucket). -/
structure Fingerprint where
  sender : String
  content : String
  bucket : Nat
deriving DecidableEq, Repr

/-- Modelled from the spec: the observed capacity (N = 1000) of the
DeduplicationWindow; the implementation (the server process, absent from
the sources — only server/README.md records its message deduplication)
caps the window at this many fingerprints. -/
def dedupCap : Nat := 1000

/-- Modelled from the spec: the DeduplicationWindow, a bounded set of
recently seen message fingerprints, newest first. -/
structure DedupWindow where
  entries : List Fingerprint
deriving DecidableEq, Repr

/-- Modelled from the spec: inserting a fingerprint into the window, with
the oldest entries evicted beyond the capacity. -/
def dedupInsert (w : DedupWindow) (f : Fingerprint) : DedupWindow :=
  { entries := (f :: w.entries).take dedupCap }

/-- Modelled from the spec: processing one user-originated chat envelope
through the DeduplicationWindow — compute the fingerprint over
(sender, content) and the coarse time bucket; if present, drop silently
(dispatched = false); otherwise insert and proceed to dispatch. -/
def processChat (w : DedupWindow) (sender content : String) (bucket : Nat) :
    DedupWindow × Bool :=
  let f : Fingerprint := ⟨sender, content, bucket⟩
  if f ∈ w.entries then (w, false)
  else (dedupInsert w f, true)

/-- Claim C6: of two chat envelopes with identical (sender, content)
processed in the same coarse time bucket (neither fingerprint seen
before), exactly the first is dispatched and the second is dropped
silently, while a third envelope with different content is dispatched,
never dropped. -/
theorem dedup_exactly_once (w : DedupWindow) (sender c c' : String) (b : Nat)
    (h1 : (⟨sender, c, b⟩ : Fingerprint) ∉ w.entries)
    (h2 : (⟨sender, c', b⟩ : Fingerprint) ∉ w.entries)
    (hne : c' ≠ c) :
    (processChat w sender c b).2 = true ∧
    (processChat (processChat w sender c b).1 sender c b).2 = false ∧
    (processChat (processChat (processChat w sender c b).1 sender c b).1
      sender c' b).2 = true := by
  have hw1 : (processChat w sender c b).1 = dedupInsert w ⟨sender, c, b⟩ := by
    simp [processChat, h1]
  have hmem : (⟨sender, c, b⟩ : Fingerprint) ∈
      (dedupInsert w ⟨sender, c, b⟩).entries := by
    simp [dedupInsert, dedupCap, List.take_cons]
  have hdrop : (processChat (processChat w sender c b).1 sender c b).2 = false := by
    rw [hw1]
    simp [processChat, hmem]
  have hw2 : (processChat (processChat w sender c b).1 sender c b).1 =
      dedupInsert w ⟨sender, c, b⟩ := by
    rw [hw1]
    simp [processChat, hmem]
  refine ⟨by simp [processChat, h1], hdrop, ?_⟩
  rw [hw2]
  have hnotmem : (⟨sender, c', b⟩ : Fingerprint) ∉
      (dedupInsert w ⟨sender, c, b⟩).entries := by
    simp only [dedupInsert, dedupCap]
    intro hmem'
    have hsub := List.take_subset 1000 ((⟨sender, c, b⟩ : Fingerprint) :: w.entries)
    have := hsub hmem'
    rcases List.mem_cons.mp this with heq | hmemw
    · exact hne (congrArg Fingerprint.content heq)
    · exact h2 hmemw
  simp [processChat, hnotmem]

theorem dedup_exactly_once_witness :
    ((⟨"alice", "hello", 17⟩ : Fingerprint) ∉ (⟨[]⟩ : DedupWindow).entries) ∧
    (((⟨"alice", "bye", 17⟩ : Fingerprint) ∉ (⟨[]⟩ : DedupWindow).entries) ∧
    (("bye" : String) ≠ "hello") ∧
    ((processChat ⟨[]⟩ "alice" "hello" 17).2 = true ∧
    (processChat (processChat ⟨[]⟩ "alice" "hello" 17).1 "alice" "hello" 17).2 = false ∧
    (processChat (processChat (processChat ⟨[]⟩ "alice" "hello" 17).1
      "alice" "hello" 17).1 "alice" "bye" 17).2 = true)) :=
  ⟨by decide, by decide, by decide,
    dedup_exactly_once ⟨[]⟩ "alice" "hello" "bye" 17 (by decide) (by decide) (by decide)⟩

end Freelaince
